import Mathlib

/-!
Shallow embedding of the per-connection TLS wrapper implemented in
src/nassl/_nassl/nassl_SSL.c.

Modelling conventions:
* The OpenSSL engine state reachable from the `SSL *ssl` handle is modelled as
  an explicit record `EngineState`; each `SSL_*` engine call used by the file
  is modelled as a Lean function on that record, following the documented
  OpenSSL semantics of the call.
* Python-level allocation failures (`PyErr_NoMemory`, `PyList_New` returning
  NULL, `tp_alloc` failing) are outside the model: the embedding assumes the
  Python allocator succeeds.  Every other branch of the C code is translated.
* An X509 certificate handle is a `Cert`; `owned = true` means the handle is
  an independently owned copy (its lifetime does not depend on the engine or
  the Connection), `owned = false` means it is borrowed engine memory.
  `X509_dup` produces an owned copy of the same contents.
* Fallible C paths that set a Python exception are modelled with explicit
  error values (`NasslError`); returning Python `None` is `Option.none`.
-/

namespace Nassl

/-- Error channels used by nassl_SSL.c.  `valueError msg` models
`PyErr_SetString(PyExc_ValueError, msg)` (a fixed message chosen by the
wrapper); `opensslError diag` models `raise_OpenSSL_error` /
`raise_OpenSSL_ssl_error`, which drain the engine's error queue and carry an
engine diagnostic — this is the channel the specification's error taxonomy
calls `ProtocolError`. -/
inductive NasslError where
  | valueError (msg : String)
  | opensslError (diagnostic : String)
deriving DecidableEq, Repr

/-- Whether an error was raised through the engine-error-queue channel
(the specification's `ProtocolError`). -/
def NasslError.isProtocolError : NasslError → Bool
  | .opensslError _ => true
  | .valueError _ => false

/-- Whether a fallible result is an error raised through the
engine-error-queue channel. -/
def resultIsProtocolError {α : Type} : Except NasslError α → Bool
  | .error e => e.isProtocolError
  | .ok _ => false

/-- An X509 certificate handle.  `content` abstracts the immutable DER bytes;
`owned` records whether the handle is an independently owned copy (true) or
borrowed engine-owned memory (false). -/
structure Cert where
  content : Nat
  owned : Bool
deriving DecidableEq, Repr

/-- OpenSSL's X509_dup: an independently owned copy with the same contents. -/
def X509_dup (c : Cert) : Cert := { c with owned := true }

/-- An SSL_CIPHER entry of the engine's cipher tables.  `id` is the engine's
internal cipher id (the low 16 bits of which are the protocol-level cipher
suite identifier), `description` the multi-field text produced by
SSL_CIPHER_description. -/
structure Cipher where
  name : String
  bits : Nat
  id : Nat
  description : String
deriving DecidableEq, Repr

/-- The raw stapled OCSP bytes held by the engine, together with the external
parser's verdict on them: `d2i_OCSP_RESPONSE` (an engine primitive, out of
scope per the specification) succeeds on them iff `wellFormed`, producing the
parsed structure abstracted as `payload`. -/
structure OCSPBytes where
  wellFormed : Bool
  payload : Nat
deriving DecidableEq, Repr

/-- OpenSSL's d2i_OCSP_RESPONSE, abstracted by its contract: parses
well-formed bytes into a structured response, returns NULL (none) on
malformed bytes. -/
def d2i_OCSP_RESPONSE (b : OCSPBytes) : Option Nat :=
  if b.wellFormed then some b.payload else none

/-- The nassl OCSP_RESPONSE Python object: the parsed response together with
the snapshot of the peer certificate chain taken when it was fetched. -/
structure OCSPResponseObject where
  ocspResp : Nat
  peerCertChain : List Cert
deriving DecidableEq, Repr

/-- The engine state reachable from the `SSL *` handle, restricted to the
fields the wrapped calls observe or mutate.
* `rbio`/`wbio`: the internal BIO bound by SSL_set_bio (freed by SSL_free).
* `verifyMode`: the mode installed by SSL_set_verify.
* `configuredCiphers`: the connection's configured cipher set in priority
  order — SSL_get_ciphers / SSL_get_cipher_list read it.
* `committedCipher`: the cipher committed to the established session —
  SSL_get_cipher_bits / SSL_get_cipher_name read it (name "(NONE)" and
  0 bits when absent).
* `tmpNewCipher`: the legacy build's `ssl->s3->tmp.new_cipher`, the
  transitional candidate cipher negotiated but not yet committed (none when
  `s3` is NULL or no candidate exists).
* `clientCAList`: the engine-owned stack behind SSL_get_client_CA_list
  (none models a NULL stack; sk_X509_NAME_pop removes the LAST element).
* `peerCert`: the peer leaf certificate the engine holds (none under
  anonymous-cipher negotiation).
* `peerCertChain`: the engine-owned peer chain, leaf first, as returned by
  SSL_get_peer_cert_chain (none when the engine has no chain — distinct from
  an empty chain).
* `ocspStaple`: the stapled OCSP bytes (none when the peer sent no OCSP
  extension data, making SSL_get_tlsext_status_ocsp_resp yield NULL). -/
structure EngineState where
  rbio : Option Nat := none
  wbio : Option Nat := none
  verifyMode : Option Nat := none
  configuredCiphers : List Cipher := []
  committedCipher : Option Cipher := none
  tmpNewCipher : Option Cipher := none
  clientCAList : Option (List String) := none
  peerCert : Option Cert := none
  peerCertChain : Option (List Cert) := none
  ocspStaple : Option OCSPBytes := none
deriving DecidableEq, Repr

/-- A nassl BIO Python object as seen from the SSL object: the Python object
identity and its underlying BIO handle (`none` once the BIO has been freed
and the pointer nulled). -/
structure BIORef where
  objId : Nat
  bio : Option Nat
deriving DecidableEq, Repr

/-- The nassl_SSL_Object: the native engine handle `ssl`, the reference to the
originating SSL_CTX Python object, and the optional network BIO adopted for
deferred release.  `none` in any field models the corresponding C field being
NULL (partial construction). -/
structure SSLObject where
  ssl : Option EngineState := none
  sslCtx_Object : Option Nat := none
  networkBio_Object : Option BIORef := none
deriving Repr

/-- Resource-release actions performed by the wrapper, in the order they can
appear in a teardown trace:
* `bioVfree b` — `BIO_vfree` on the network BIO handle `b`;
* `decrefBioObject o` — `Py_DECREF` of the adopted network BIO Python object;
* `sslFree` — `SSL_free(self->ssl)`, which cascades to free the internal BIO;
* `decrefContext c` — `Py_DECREF` of the SSL_CTX reference `c`. -/
inductive ReleaseEvent where
  | bioVfree (bio : Nat)
  | decrefBioObject (objId : Nat)
  | sslFree
  | decrefContext (ctxId : Nat)
deriving DecidableEq, Repr

/-- Rank of a release event in the teardown order mandated by
nassl_SSL_dealloc: network BIO free, then its Python object's decref, then
the native engine state, then the Context reference. -/
def ReleaseEvent.rank : ReleaseEvent → Nat
  | .bioVfree _ => 0
  | .decrefBioObject _ => 1
  | .sslFree => 2
  | .decrefContext _ => 3

/-- nassl_SSL_dealloc, translated step by step: (1) if a network BIO object
was adopted, free its BIO handle when still live and drop the Python
reference; (2) if the native engine state exists, SSL_free it (cascading to
the internal BIO); (3) if the Context reference exists, drop it.  Every
dereference is NULL-guarded in the C, so the function is total over all
partially constructed objects.  Returns the trace of release events in the
order the C performs them, and the object state the C leaves behind just
before `tp_free`. -/
def nassl_SSL_dealloc (self : SSLObject) : List ReleaseEvent × SSLObject :=
  let step1 : List ReleaseEvent × SSLObject :=
    match self.networkBio_Object with
    | none => ([], self)
    | some nb =>
      let freeEvs : List ReleaseEvent :=
        match nb.bio with
        | none => []
        | some b => [ReleaseEvent.bioVfree b]
      (freeEvs ++ [ReleaseEvent.decrefBioObject nb.objId],
       { self with networkBio_Object := none })
  let step2 : List ReleaseEvent × SSLObject :=
    match step1.2.ssl with
    | none => ([], step1.2)
    | some _ => ([ReleaseEvent.sslFree], { step1.2 with ssl := none })
  let step3 : List ReleaseEvent :=
    match step2.2.sslCtx_Object with
    | none => []
    | some ctxId => [ReleaseEvent.decrefContext ctxId]
  (step1.1 ++ step2.1 ++ step3, step2.2)

/-- The release trace emitted by nassl_SSL_dealloc. -/
def deallocEvents (self : SSLObject) : List ReleaseEvent :=
  (nassl_SSL_dealloc self).1

/-- The operations callable on a live SSL object, as they affect the object's
ownership fields.
* `setNetworkBioToFree nb` — nassl_SSL_set_network_bio_to_free_when_dealloc:
  Py_INCREF the BIO object and store it in `networkBio_Object` (overwriting
  any previous value without releasing it); frees nothing.
* `setBio b` — nassl_SSL_set_bio: SSL_set_bio installs `b` as both read and
  write BIO of the engine state; frees nothing.
* `engineCall f` — any of the remaining methods of the file
  (do_handshake, read, write, shutdown, set_verify, renegotiate,
  get_client_CA_list, ...): they receive only `self->ssl`, may transform the
  engine state arbitrarily (`f`), never touch `networkBio_Object` and never
  free any BIO. -/
inductive Op where
  | setNetworkBioToFree (nb : BIORef)
  | setBio (b : Nat)
  | engineCall (f : EngineState → EngineState)

/-- Effect of one operation on the SSL object.  Each operation's C body
contains no BIO_vfree / SSL_free call, so no release events are emitted. -/
def runOp (self : SSLObject) : Op → SSLObject × List ReleaseEvent
  | .setNetworkBioToFree nb => ({ self with networkBio_Object := some nb }, [])
  | .setBio b =>
      ({ self with ssl := self.ssl.map (fun e => { e with rbio := some b, wbio := some b }) }, [])
  | .engineCall f => ({ self with ssl := self.ssl.map f }, [])

/-- Run a sequence of operations, accumulating the release events. -/
def runOps : SSLObject → List Op → SSLObject × List ReleaseEvent
  | self, [] => (self, [])
  | self, op :: ops =>
    let r1 := runOp self op
    let r2 := runOps r1.1 ops
    (r2.1, r1.2 ++ r2.2)

/-- The complete release trace of one Connection lifetime: the events emitted
while running `ops`, followed by the events of the final deallocation. -/
def lifeTrace (init : SSLObject) (ops : List Op) : List ReleaseEvent :=
  (runOps init ops).2 ++ deallocEvents (runOps init ops).1

/-- nassl_SSL_set_verify: the four exact OpenSSL mode values
SSL_VERIFY_NONE (0), SSL_VERIFY_PEER (1), SSL_VERIFY_FAIL_IF_NO_PEER_CERT (2)
and SSL_VERIFY_CLIENT_ONCE (4) are accepted and passed to SSL_set_verify;
any other value raises ValueError before any engine call.  Returns the
resulting engine state, whether SSL_set_verify was invoked, and the raised
error if any. -/
def nassl_SSL_set_verify (s : EngineState) (mode : Nat) :
    EngineState × Bool × Option NasslError :=
  if mode = 0 ∨ mode = 1 ∨ mode = 2 ∨ mode = 4 then
    ({ s with verifyMode := some mode }, true, none)
  else
    (s, false, some (NasslError.valueError "Invalid value for verification mode"))

/-- OpenSSL's SSL_get_peer_certificate: NULL when the engine holds no peer
certificate (anonymous cipher suite); otherwise an up-referenced handle the
caller owns independently of the connection, modelled as a duplicate. -/
def SSL_get_peer_certificate (s : EngineState) : Option Cert :=
  s.peerCert.map X509_dup

/-- nassl_SSL_get_peer_certificate: Python None when the engine reports no
peer certificate, otherwise an X509 object taking ownership of the returned
handle. -/
def nassl_SSL_get_peer_certificate (s : EngineState) : Option Cert :=
  match SSL_get_peer_certificate s with
  | none => none
  | some cert => some cert

/-- nassl_SSL_get_peer_cert_chain: ValueError when SSL_get_peer_cert_chain
returns NULL (no chain available); otherwise a list holding, at each index,
an X509_dup copy of the engine chain's certificate at that index (the engine
chain is leaf first and freed automatically, hence the copies). -/
def nassl_SSL_get_peer_cert_chain (s : EngineState) : Except NasslError (List Cert) :=
  match s.peerCertChain with
  | none => .error (.valueError "Error getting the peer's certificate chain.")
  | some chain => .ok (chain.map X509_dup)

/-- nassl_SSL_get_tlsext_status_ocsp_resp: Python None when the engine holds
no stapled OCSP bytes; ValueError when the bytes fail to parse; ValueError
when no peer chain is available; otherwise the parsed response together with
an X509_dup copy of each certificate of the current peer chain. -/
def nassl_SSL_get_tlsext_status_ocsp_resp (s : EngineState) :
    Except NasslError (Option OCSPResponseObject) :=
  match s.ocspStaple with
  | none => .ok none
  | some bytes =>
    match d2i_OCSP_RESPONSE bytes with
    | none => .error (.valueError "Error parsing the OCSP response. Should not happen ?")
    | some resp =>
      match s.peerCertChain with
      | none => .error (.valueError "Error getting the peer's certificate chain.")
      | some chain => .ok (some { ocspResp := resp, peerCertChain := chain.map X509_dup })

/-- get_tmp_new_cipher: in the legacy build, `ssl->s3->tmp.new_cipher` — the
transitional candidate cipher (NULL when absent, collapsed with a NULL `s3`
into `none`); in the modern build the function body is `return NULL`. -/
def get_tmp_new_cipher (legacy : Bool) (s : EngineState) : Option Cipher :=
  if legacy then s.tmpNewCipher else none

/-- OpenSSL's SSL_get_cipher_bits on the session cipher: 0 when no cipher has
been committed. -/
def SSL_get_cipher_bits (s : EngineState) : Nat :=
  match s.committedCipher with
  | none => 0
  | some c => c.bits

/-- OpenSSL's SSL_get_cipher_name on the session cipher: the string "(NONE)"
when no cipher has been committed. -/
def SSL_get_cipher_name (s : EngineState) : String :=
  match s.committedCipher with
  | none => "(NONE)"
  | some c => c.name

/-- nassl_SSL_get_cipher_bits: bits of the candidate cipher when
get_tmp_new_cipher yields one, else SSL_get_cipher_bits of the committed
cipher (0 when none). -/
def nassl_SSL_get_cipher_bits (legacy : Bool) (s : EngineState) : Nat :=
  match get_tmp_new_cipher legacy s with
  | some c => c.bits
  | none => SSL_get_cipher_bits s

/-- nassl_SSL_get_cipher_name: name of the candidate cipher when
get_tmp_new_cipher yields one, else SSL_get_cipher_name of the committed
cipher; the sentinel "(NONE)" becomes Python None. -/
def nassl_SSL_get_cipher_name (legacy : Bool) (s : EngineState) : Option String :=
  let cipherName :=
    match get_tmp_new_cipher legacy s with
    | some c => c.name
    | none => SSL_get_cipher_name s
  if cipherName = "(NONE)" then none else some cipherName

/-- nassl_SSL_get_cipher_protocol_id: Python None whenever get_tmp_new_cipher
yields no candidate cipher — the committed cipher is never consulted;
otherwise the candidate's protocol-level id (legacy build:
`cipher->id & 0xFFFF`; the modern-build branch is unreachable because
get_tmp_new_cipher always returns NULL there). -/
def nassl_SSL_get_cipher_protocol_id (legacy : Bool) (s : EngineState) : Option Nat :=
  match get_tmp_new_cipher legacy s with
  | none => none
  | some cipher => some (cipher.id % 65536)

/-- nassl_SSL_get_cipher_description: linear scan of SSL_get_ciphers (the
connection's configured cipher set, priority order) for the first cipher
whose name strcmp-equals the wanted name; Python None when no match,
SSL_CIPHER_description of the match otherwise. -/
def nassl_SSL_get_cipher_description (s : EngineState) (wanted : String) : Option String :=
  match s.configuredCiphers.find? (fun c => c.name == wanted) with
  | none => none
  | some c => some c.description

/-- OpenSSL's SSL_get_cipher_list(ssl, n): the name of the configured cipher
with priority `n`, NULL when out of range. -/
def SSL_get_cipher_list (s : EngineState) (priority : Nat) : Option String :=
  s.configuredCiphers[priority]?.map Cipher.name

/-- The do-while loop of nassl_SSL_get_cipher_list: read the name at the
current priority, then continue at the next priority while
SSL_get_cipher_list is non-NULL there.  `fuel` bounds the recursion; the
caller passes the configured list's length, which the loop never exhausts. -/
def cipherListLoop (s : EngineState) : Nat → Nat → List String
  | _, 0 => []
  | priority, fuel + 1 =>
    let name := (SSL_get_cipher_list s priority).getD ""
    if (SSL_get_cipher_list s (priority + 1)).isSome then
      name :: cipherListLoop s (priority + 1) fuel
    else
      [name]

/-- nassl_SSL_get_cipher_list: Python None when SSL_get_cipher_list at
priority 0 is NULL (no cipher configured); otherwise the list of names
collected by the do-while loop over increasing priorities. -/
def nassl_SSL_get_cipher_list (s : EngineState) : Option (List String) :=
  match SSL_get_cipher_list s 0 with
  | none => none
  | some _ => some (cipherListLoop s 0 s.configuredCiphers.length)

/-- The for loop of nassl_SSL_get_client_CA_list: `count` iterations, each
sk_X509_NAME_pop-ping the LAST element off the engine-owned stack and
appending its X509_NAME_oneline string (names are modelled as their oneline
strings).  Returns the collected names and the remaining stack, or `none` on
the C's ValueError path when a pop yields NULL (unreachable, since the loop
bound is the stack's length). -/
def clientCAPopLoop : List String → Nat → Option (List String × List String)
  | stack, 0 => some ([], stack)
  | stack, count + 1 =>
    match stack.getLast? with
    | none => none
    | some name =>
      match clientCAPopLoop stack.dropLast count with
      | none => none
      | some r => some (name :: r.1, r.2)

/-- nassl_SSL_get_client_CA_list: builds its result by popping every name off
the engine-owned client-CA stack (SSL_get_client_CA_list; a NULL stack gives
sk_X509_NAME_num = -1 and an empty result with no mutation).  Returns the
name list (none on the unreachable ValueError path) and the engine state
after the destructive reads. -/
def nassl_SSL_get_client_CA_list (s : EngineState) : Option (List String) × EngineState :=
  match s.clientCAList with
  | none => (some [], s)
  | some stack =>
    match clientCAPopLoop stack stack.length with
    | none => (none, s)
    | some r => (some r.1, { s with clientCAList := some r.2 })

/-! Concrete objects used to instantiate the theorems below. -/

/-- A live network BIO Python object (object id 1, BIO handle 10). -/
def bioA : BIORef := ⟨1, some 10⟩

/-- A second live network BIO Python object (object id 2, BIO handle 20). -/
def bioB : BIORef := ⟨2, some 20⟩

/-- A fully constructed SSL object (engine state present, Context held,
no network BIO adopted yet). -/
def conn0 : SSLObject := { ssl := some {}, sslCtx_Object := some 0 }

/-- A borrowed engine-owned certificate. -/
def certA : Cert := ⟨5, false⟩

/-- A second borrowed engine-owned certificate. -/
def certB : Cert := ⟨7, false⟩

/-- An engine state whose peer chain holds two borrowed certificates,
leaf first. -/
def stChain : EngineState := { peerCertChain := some [certA, certB] }

/-- An engine state in which SSL_get_peer_cert_chain returns NULL. -/
def stChainless : EngineState := {}

/-- A committed session cipher (TLS_RSA_WITH_AES_256_CBC_SHA, engine id
0x03000035). -/
def cipherA : Cipher :=
  ⟨"AES256-SHA", 256, 50331701, "AES256-SHA SSLv3 Kx=RSA Au=RSA Enc=AES(256) Mac=SHA1"⟩

/-- A transitional candidate cipher (TLS_RSA_WITH_AES_128_CBC_SHA, engine id
0x0300002F). -/
def cipherB : Cipher :=
  ⟨"AES128-SHA", 128, 50331695, "AES128-SHA SSLv3 Kx=RSA Au=RSA Enc=AES(128) Mac=SHA1"⟩

/-- An engine state with a committed cipher and no candidate cipher. -/
def stCommittedOnly : EngineState := { committedCipher := some cipherA }

/-- An engine state mid-handshake: a candidate cipher has been negotiated
but not committed, while the previously committed cipher is still present. -/
def stCandidate : EngineState :=
  { committedCipher := some cipherA, tmpNewCipher := some cipherB }

/-- An engine state with well-formed stapled OCSP bytes but no peer chain. -/
def stOcspNoChain : EngineState := { ocspStaple := some ⟨true, 42⟩ }

/-- An engine state with well-formed stapled OCSP bytes and a peer chain. -/
def stOcspFull : EngineState :=
  { ocspStaple := some ⟨true, 42⟩, peerCertChain := some [certA] }

/-- An engine state with malformed stapled OCSP bytes. -/
def stOcspBad : EngineState :=
  { ocspStaple := some ⟨false, 0⟩, peerCertChain := some [certA] }

/-- A fresh engine state used to exercise set_verify. -/
def stVerify : EngineState := {}

/-- An engine state holding a borrowed peer leaf certificate. -/
def stPeer : EngineState := { peerCert := some ⟨11, false⟩ }

/-- An engine state with two configured ciphers, priority order. -/
def stCfg : EngineState := { configuredCiphers := [cipherB, cipherA] }

/-- An engine state whose client-CA stack stores three names, bottom
first. -/
def stCAs : EngineState :=
  { clientCAList := some ["CN=Root", "CN=Intermediate", "CN=Leaf"] }

/-! Helper lemmas. -/

/-- No operation of a live SSL object emits a release event: every method
body of the file other than the destructor is free of BIO_vfree / SSL_free
calls. -/
theorem runOps_events_nil (ops : List Op) : ∀ s : SSLObject, (runOps s ops).2 = [] := by
  induction ops with
  | nil => intro s; rfl
  | cons op ops ih =>
    intro s
    cases op <;> simp [runOps, runOp, ih]

/-- Operations other than set_network_bio_to_free_when_dealloc leave the
adopted network BIO reference untouched. -/
theorem runOps_networkBio_of_no_adopt (ops : List Op) :
    ∀ s : SSLObject, (∀ nb, Op.setNetworkBioToFree nb ∉ ops) →
      (runOps s ops).1.networkBio_Object = s.networkBio_Object := by
  induction ops with
  | nil => intro s _; rfl
  | cons op ops ih =>
    intro s h
    have hop : ∀ nb, Op.setNetworkBioToFree nb ≠ op := by
      intro nb heq
      exact h nb (heq ▸ List.mem_cons_self op ops)
    have htail : ∀ nb, Op.setNetworkBioToFree nb ∉ ops := by
      intro nb hmem
      exact h nb (List.mem_cons_of_mem op hmem)
    cases op with
    | setNetworkBioToFree nb => exact absurd rfl (hop nb)
    | setBio b => simpa [runOps, runOp] using ih _ htail
    | engineCall f => simpa [runOps, runOp] using ih _ htail

/-- Running a concatenated operation list threads the state through the
first list and then the second. -/
theorem runOps_fst_append (l1 l2 : List Op) :
    ∀ s : SSLObject, (runOps s (l1 ++ l2)).1 = (runOps (runOps s l1).1 l2).1 := by
  induction l1 with
  | nil => intro s; rfl
  | cons op ops ih => intro s; simp [runOps, ih]

/-- The destructor's trace frees the adopted network BIO handle exactly
once. -/
theorem dealloc_count_bioVfree (self : SSLObject) (nb : BIORef) (b : Nat)
    (h1 : self.networkBio_Object = some nb) (h2 : nb.bio = some b) :
    (deallocEvents self).count (ReleaseEvent.bioVfree b) = 1 := by
  obtain ⟨sslOpt, ctxOpt, nbOpt⟩ := self
  cases nbOpt with
  | none => simp at h1
  | some nb' =>
    obtain rfl : nb' = nb := by simpa using h1
    cases sslOpt <;> cases ctxOpt <;>
      simp [deallocEvents, nassl_SSL_dealloc, h2, List.count_cons]

/-- C1: nassl_SSL_dealloc releases resources in the fixed order network BIO
(handle free then object decref), then native engine state (SSL_free, which
cascades to the internal BIO), then the Context reference; each release
happens exactly when the corresponding field is set, so the destructor is
total over every partially constructed object, and it leaves the network BIO
reference and the engine handle cleared. -/
theorem dealloc_ordered_and_total (self : SSLObject) :
    List.Pairwise (fun a b => a.rank < b.rank) (deallocEvents self)
    ∧ (ReleaseEvent.sslFree ∈ deallocEvents self ↔ self.ssl.isSome = true)
    ∧ (∀ c, ReleaseEvent.decrefContext c ∈ deallocEvents self ↔ self.sslCtx_Object = some c)
    ∧ (∀ b, ReleaseEvent.bioVfree b ∈ deallocEvents self ↔
        ∃ nb, self.networkBio_Object = some nb ∧ nb.bio = some b)
    ∧ (∀ o, ReleaseEvent.decrefBioObject o ∈ deallocEvents self ↔
        ∃ nb, self.networkBio_Object = some nb ∧ nb.objId = o)
    ∧ (nassl_SSL_dealloc self).2.networkBio_Object = none
    ∧ (nassl_SSL_dealloc self).2.ssl = none := by
  obtain ⟨sslOpt, ctxOpt, nbOpt⟩ := self
  rcases nbOpt with _ | ⟨oid, _ | b⟩ <;>
    cases sslOpt <;> cases ctxOpt <;>
      simp [deallocEvents, nassl_SSL_dealloc, ReleaseEvent.rank, eq_comm]

/-- C2 counterexample: an endpoint adopted for deferred release and later
displaced by a second adoption is never released.  Here bioA (BIO handle 10)
is adopted, then bioB is adopted over it, and the whole lifetime trace —
operations followed by destruction — frees handle 10 zero times (while
handle 20, the endpoint in place at destruction, is freed once). -/
theorem adopt_replaced_endpoint_never_released :
    bioA.bio = some 10
    ∧ (lifeTrace conn0 [Op.setNetworkBioToFree bioA, Op.setNetworkBioToFree bioB]).count
        (ReleaseEvent.bioVfree 10) = 0
    ∧ (lifeTrace conn0 [Op.setNetworkBioToFree bioA, Op.setNetworkBioToFree bioB]).count
        (ReleaseEvent.bioVfree 20) = 1 := by
  refine ⟨rfl, ?_, ?_⟩ <;> rfl

/-- C2 amended: for every Connection, the endpoint in place at destruction —
the most recently adopted one — is released exactly once, and only by
destroy(): the operations preceding destruction emit no release at all.  (An
endpoint displaced by a later adoption call is never released by the
Connection.) -/
theorem adopted_endpoint_released_once_at_destroy
    (init : SSLObject) (pre post : List Op) (e : BIORef) (b : Nat)
    (hb : e.bio = some b)
    (hpost : ∀ nb, Op.setNetworkBioToFree nb ∉ post) :
    (runOps init (pre ++ Op.setNetworkBioToFree e :: post)).2 = []
    ∧ (lifeTrace init (pre ++ Op.setNetworkBioToFree e :: post)).count
        (ReleaseEvent.bioVfree b) = 1 := by
  have hnil := runOps_events_nil (pre ++ Op.setNetworkBioToFree e :: post) init
  refine ⟨hnil, ?_⟩
  unfold lifeTrace
  rw [hnil, List.nil_append]
  have hfst : (runOps init (pre ++ Op.setNetworkBioToFree e :: post)).1.networkBio_Object
      = some e := by
    rw [runOps_fst_append]
    have hstep :
        (runOps (runOps init pre).1 (Op.setNetworkBioToFree e :: post)).1
          = (runOps { (runOps init pre).1 with networkBio_Object := some e } post).1 := by
      simp [runOps, runOp]
    rw [hstep, runOps_networkBio_of_no_adopt post _ hpost]
  exact dealloc_count_bioVfree _ e b hfst hb

/-- Witness for the amended C2 theorem: adopting bioA (BIO handle 10) as the
last adoption and destroying the Connection frees handle 10 exactly once,
with no release before destruction. -/
theorem adopted_endpoint_released_once_at_destroy_witness :
    (runOps conn0 ([] ++ Op.setNetworkBioToFree bioA :: [])).2 = []
    ∧ (lifeTrace conn0 ([] ++ Op.setNetworkBioToFree bioA :: [])).count
        (ReleaseEvent.bioVfree 10) = 1 :=
  adopted_endpoint_released_once_at_destroy conn0 [] [] bioA 10 rfl (by simp)

/-- C3 counterexample: when the engine reports no chain,
nassl_SSL_get_peer_cert_chain fails with a fixed-message ValueError, not
through the engine-error-queue channel the specification's taxonomy calls
ProtocolError (the channel of raise_OpenSSL_error, which carries an engine
diagnostic). -/
theorem peer_cert_chain_fails_outside_protocol_error_channel :
    stChainless.peerCertChain = none
    ∧ nassl_SSL_get_peer_cert_chain stChainless
        = .error (.valueError "Error getting the peer's certificate chain.")
    ∧ resultIsProtocolError (nassl_SSL_get_peer_cert_chain stChainless) = false := by
  refine ⟨rfl, rfl, rfl⟩

/-- C3 amended: peer_certificate_chain fails with an error — realized as a
fixed-message ValueError rather than an engine-diagnostic ProtocolError —
exactly when the engine reports that no chain is available; an
available-but-empty chain instead yields the empty sequence; and on an
available chain the result holds, at each position, an independently owned
X509_dup copy of the engine chain's certificate at that position (leaf
first), so every entry survives the Connection. -/
theorem peer_cert_chain_spec (s : EngineState) :
    ((∃ msg, nassl_SSL_get_peer_cert_chain s = .error (.valueError msg))
        ↔ s.peerCertChain = none)
    ∧ (s.peerCertChain = some [] → nassl_SSL_get_peer_cert_chain s = .ok [])
    ∧ (∀ chain, s.peerCertChain = some chain →
        nassl_SSL_get_peer_cert_chain s = .ok (chain.map X509_dup)
        ∧ (∀ i : Nat, (chain.map X509_dup)[i]? = chain[i]?.map X509_dup)
        ∧ (∀ c ∈ chain.map X509_dup, c.owned = true)) := by
  cases hc : s.peerCertChain with
  | none => simp [nassl_SSL_get_peer_cert_chain, hc]
  | some chain =>
    refine ⟨by simp [nassl_SSL_get_peer_cert_chain, hc], ?_, ?_⟩
    · intro h
      simp [nassl_SSL_get_peer_cert_chain, hc, h]
    · rintro chain' hch
      obtain rfl : chain = chain' := by simpa [hc] using hch
      refine ⟨by simp [nassl_SSL_get_peer_cert_chain, hc], ?_, ?_⟩
      · intro i; simp
      · intro c hcmem
        simp only [List.mem_map] at hcmem
        obtain ⟨c0, _, rfl⟩ := hcmem
        rfl

/-- Witness for the amended C3 theorem: on an engine chain of two borrowed
certificates the wrapper returns their two owned duplicates in order. -/
theorem peer_cert_chain_spec_witness :
    nassl_SSL_get_peer_cert_chain stChain = .ok [⟨5, true⟩, ⟨7, true⟩]
    ∧ (⟨5, true⟩ : Cert).owned = true :=
  ⟨((peer_cert_chain_spec stChain).2.2 [certA, certB] rfl).1, rfl⟩

/-- C4 counterexample: with no candidate cipher but a committed session
cipher, get_cipher_name and get_cipher_bits fall back to the committed
cipher, but get_cipher_protocol_id returns None instead of the committed
cipher's protocol identifier — in both build variants — falsifying the claim
that all three queries fall back. -/
theorem cipher_protocol_id_ignores_committed_cipher :
    stCommittedOnly.committedCipher = some cipherA
    ∧ get_tmp_new_cipher true stCommittedOnly = none
    ∧ get_tmp_new_cipher false stCommittedOnly = none
    ∧ nassl_SSL_get_cipher_name true stCommittedOnly = some "AES256-SHA"
    ∧ nassl_SSL_get_cipher_bits true stCommittedOnly = 256
    ∧ nassl_SSL_get_cipher_protocol_id true stCommittedOnly = none
    ∧ nassl_SSL_get_cipher_protocol_id false stCommittedOnly = none := by
  refine ⟨rfl, rfl, rfl, ?_, rfl, rfl, rfl⟩
  decide

/-- C4 amended: get_cipher_name and get_cipher_bits prefer the transitional
candidate cipher when get_tmp_new_cipher yields one, fall back to the
committed cipher otherwise, and return the None/0 sentinel when no
negotiation has occurred; get_cipher_protocol_id, however, answers only from
the candidate cipher — it returns the candidate's protocol id when one
exists and None otherwise, never consulting the committed cipher. -/
theorem cipher_introspection_spec (legacy : Bool) (s : EngineState) :
    (∀ c, get_tmp_new_cipher legacy s = some c → c.name ≠ "(NONE)" →
      nassl_SSL_get_cipher_name legacy s = some c.name
      ∧ nassl_SSL_get_cipher_bits legacy s = c.bits
      ∧ nassl_SSL_get_cipher_protocol_id legacy s = some (c.id % 65536))
    ∧ (∀ c, get_tmp_new_cipher legacy s = none → s.committedCipher = some c →
        c.name ≠ "(NONE)" →
      nassl_SSL_get_cipher_name legacy s = some c.name
      ∧ nassl_SSL_get_cipher_bits legacy s = c.bits
      ∧ nassl_SSL_get_cipher_protocol_id legacy s = none)
    ∧ (get_tmp_new_cipher legacy s = none → s.committedCipher = none →
      nassl_SSL_get_cipher_name legacy s = none
      ∧ nassl_SSL_get_cipher_bits legacy s = 0
      ∧ nassl_SSL_get_cipher_protocol_id legacy s = none) := by
  refine ⟨?_, ?_, ?_⟩
  · intro c hc hname
    simp [nassl_SSL_get_cipher_name, nassl_SSL_get_cipher_bits,
      nassl_SSL_get_cipher_protocol_id, hc, hname]
  · intro c hc hcom hname
    simp [nassl_SSL_get_cipher_name, nassl_SSL_get_cipher_bits,
      nassl_SSL_get_cipher_protocol_id, SSL_get_cipher_name, SSL_get_cipher_bits,
      hc, hcom, hname]
  · intro hc hcom
    simp [nassl_SSL_get_cipher_name, nassl_SSL_get_cipher_bits,
      nassl_SSL_get_cipher_protocol_id, SSL_get_cipher_name, SSL_get_cipher_bits,
      hc, hcom]

/-- Witness for the amended C4 theorem: mid-handshake (candidate AES128-SHA
present, committed AES256-SHA still installed) the legacy build reports the
candidate's name, bits and protocol id 0x2F = 47. -/
theorem cipher_introspection_spec_witness :
    nassl_SSL_get_cipher_name true stCandidate = some "AES128-SHA"
    ∧ nassl_SSL_get_cipher_bits true stCandidate = 128
    ∧ nassl_SSL_get_cipher_protocol_id true stCandidate = some 47 := by
  have h := (cipher_introspection_spec true stCandidate).1 cipherB rfl (by decide)
  exact ⟨h.1, h.2.1, h.2.2⟩

/-- C5 counterexample: with well-formed stapled OCSP bytes present but no
peer chain available, get_tlsext_status_ocsp_resp fails with an error rather
than returning the parsed response together with a chain snapshot, so
"data present and well-formed implies a parsed response is returned" does not
hold unconditionally. -/
theorem ocsp_wellformed_without_chain_errors :
    stOcspNoChain.ocspStaple = some ⟨true, 42⟩
    ∧ stOcspNoChain.peerCertChain = none
    ∧ nassl_SSL_get_tlsext_status_ocsp_resp stOcspNoChain
        = .error (.valueError "Error getting the peer's certificate chain.") := by
  refine ⟨rfl, rfl, rfl⟩

/-- C5 amended: get_tlsext_status_ocsp_resp returns None exactly when the
peer provided no OCSP extension data; when data is present but malformed it
fails with a parse error rather than returning None; when data is present
and well-formed it fails with an error if no peer chain is available, and
otherwise returns the parsed response together with an independently owned
X509_dup snapshot of the current peer chain. -/
theorem ocsp_resp_spec (s : EngineState) :
    (nassl_SSL_get_tlsext_status_ocsp_resp s = .ok none ↔ s.ocspStaple = none)
    ∧ (∀ b, s.ocspStaple = some b → b.wellFormed = false →
        nassl_SSL_get_tlsext_status_ocsp_resp s
          = .error (.valueError "Error parsing the OCSP response. Should not happen ?"))
    ∧ (∀ b, s.ocspStaple = some b → b.wellFormed = true → s.peerCertChain = none →
        nassl_SSL_get_tlsext_status_ocsp_resp s
          = .error (.valueError "Error getting the peer's certificate chain."))
    ∧ (∀ b chain, s.ocspStaple = some b → b.wellFormed = true →
        s.peerCertChain = some chain →
        nassl_SSL_get_tlsext_status_ocsp_resp s
          = .ok (some ⟨b.payload, chain.map X509_dup⟩)
        ∧ (∀ c ∈ chain.map X509_dup, c.owned = true)) := by
  refine ⟨?_, ?_, ?_, ?_⟩
  · cases hoc : s.ocspStaple with
    | none => simp [nassl_SSL_get_tlsext_status_ocsp_resp, hoc]
    | some b =>
      simp only [nassl_SSL_get_tlsext_status_ocsp_resp, hoc, d2i_OCSP_RESPONSE]
      cases hw : b.wellFormed <;>
        cases hch : s.peerCertChain <;> simp
  · intro b hoc hw
    simp [nassl_SSL_get_tlsext_status_ocsp_resp, hoc, d2i_OCSP_RESPONSE, hw]
  · intro b hoc hw hch
    simp [nassl_SSL_get_tlsext_status_ocsp_resp, hoc, d2i_OCSP_RESPONSE, hw, hch]
  · intro b chain hoc hw hch
    refine ⟨by simp [nassl_SSL_get_tlsext_status_ocsp_resp, hoc, d2i_OCSP_RESPONSE, hw, hch], ?_⟩
    intro c hcmem
    simp only [List.mem_map] at hcmem
    obtain ⟨c0, _, rfl⟩ := hcmem
    rfl

/-- Witness for the amended C5 theorem: with well-formed staple bytes and a
one-certificate peer chain, the wrapper returns the parsed response 42 plus
the owned duplicate of the chain certificate. -/
theorem ocsp_resp_spec_witness :
    nassl_SSL_get_tlsext_status_ocsp_resp stOcspFull = .ok (some ⟨42, [⟨5, true⟩]⟩)
    ∧ nassl_SSL_get_tlsext_status_ocsp_resp stOcspBad
        = .error (.valueError "Error parsing the OCSP response. Should not happen ?") :=
  ⟨((ocsp_resp_spec stOcspFull).2.2.2 ⟨true, 42⟩ [certA] rfl rfl rfl).1,
    (ocsp_resp_spec stOcspBad).2.1 ⟨false, 0⟩ rfl rfl⟩

/-- C6: set_verify accepts exactly the four recognized modes
SSL_VERIFY_NONE (0), SSL_VERIFY_PEER (1), SSL_VERIFY_FAIL_IF_NO_PEER_CERT
(2) and SSL_VERIFY_CLIENT_ONCE (4), for which the engine call is performed;
any other integer is rejected with a ValueError (the taxonomy's
InvalidArgument) before any engine call, leaving the engine state
unchanged. -/
theorem set_verify_spec (s : EngineState) (mode : Nat) :
    (¬(mode = 0 ∨ mode = 1 ∨ mode = 2 ∨ mode = 4) →
      nassl_SSL_set_verify s mode
        = (s, false, some (.valueError "Invalid value for verification mode")))
    ∧ ((mode = 0 ∨ mode = 1 ∨ mode = 2 ∨ mode = 4) →
      nassl_SSL_set_verify s mode = ({ s with verifyMode := some mode }, true, none)) := by
  constructor <;> intro h <;> simp [nassl_SSL_set_verify, h]

/-- Witness for C6: the unrecognized combined mode 3 is rejected with the
engine untouched, while the recognized mode 1 reaches the engine. -/
theorem set_verify_spec_witness :
    nassl_SSL_set_verify stVerify 3
      = (stVerify, false, some (.valueError "Invalid value for verification mode"))
    ∧ nassl_SSL_set_verify stVerify 1
      = ({ stVerify with verifyMode := some 1 }, true, none) :=
  ⟨(set_verify_spec stVerify 3).1 (by decide), (set_verify_spec stVerify 1).2 (by decide)⟩

/-- C7: get_peer_certificate returns None exactly when the engine reports no
peer certificate (anonymous cipher negotiation); otherwise it returns the
engine's up-referenced handle, an independently owned value whose lifetime
does not depend on the Connection. -/
theorem peer_certificate_spec (s : EngineState) :
    (nassl_SSL_get_peer_certificate s = none ↔ s.peerCert = none)
    ∧ (∀ c, s.peerCert = some c →
        nassl_SSL_get_peer_certificate s = some (X509_dup c)
        ∧ (X509_dup c).owned = true) := by
  cases hp : s.peerCert <;>
    simp [nassl_SSL_get_peer_certificate, SSL_get_peer_certificate, hp, X509_dup]

/-- Witness for C7: with a borrowed engine peer certificate present, the
wrapper returns its owned duplicate. -/
theorem peer_certificate_spec_witness :
    nassl_SSL_get_peer_certificate stPeer = some ⟨11, true⟩
    ∧ (⟨11, true⟩ : Cert).owned = true :=
  ⟨((peer_certificate_spec stPeer).2 ⟨11, false⟩ rfl).1, rfl⟩

/-- C8: get_cipher_description answers with a description exactly when some
cipher of the Connection's configured set matches the wanted name exactly,
and it is the description of the first such cipher; no configured match
yields None, never a fault (the lookup is a total function). -/
theorem cipher_description_spec (s : EngineState) (wanted : String) :
    ((nassl_SSL_get_cipher_description s wanted).isSome = true
        ↔ ∃ c ∈ s.configuredCiphers, c.name = wanted)
    ∧ (∀ c, s.configuredCiphers.find? (fun x => x.name == wanted) = some c →
        nassl_SSL_get_cipher_description s wanted = some c.description) := by
  constructor
  · cases hf : s.configuredCiphers.find? (fun x => x.name == wanted) with
    | none =>
      rw [List.find?_eq_none] at hf
      simp only [nassl_SSL_get_cipher_description]
      rw [List.find?_eq_none.mpr ?_]
      · simp only [Option.isSome_none, Bool.false_eq_true, false_iff]
        rintro ⟨c, hmem, rfl⟩
        exact hf c hmem (by simp)
      · exact hf
    | some c =>
      have hmem := List.mem_of_find?_eq_some hf
      have hname := List.find?_some hf
      simp only [beq_iff_eq] at hname
      simp only [nassl_SSL_get_cipher_description, hf, Option.isSome_some, true_iff]
      exact ⟨c, hmem, hname⟩
  · intro c hf
    simp [nassl_SSL_get_cipher_description, hf]

/-- Witness for C8: a configured name resolves to its description and an
unknown name yields None. -/
theorem cipher_description_spec_witness :
    nassl_SSL_get_cipher_description stCfg "AES256-SHA"
      = some "AES256-SHA SSLv3 Kx=RSA Au=RSA Enc=AES(256) Mac=SHA1"
    ∧ (nassl_SSL_get_cipher_description stCfg "NO-SUCH-CIPHER").isSome = false := by
  constructor
  · exact (cipher_description_spec stCfg "AES256-SHA").2 cipherA (by decide)
  · have h := (cipher_description_spec stCfg "NO-SUCH-CIPHER").1
    rw [Bool.eq_false_iff]
    intro hsome
    obtain ⟨c, hmem, hname⟩ := h.mp hsome
    revert hname
    have : c = cipherB ∨ c = cipherA := by
      simpa [stCfg] using hmem
    rcases this with rfl | rfl <;> decide

/-- The pop loop applied to the full length of the stack succeeds, returning
every name in reverse storage order and leaving the stack empty. -/
theorem clientCAPopLoop_full (l : List String) :
    clientCAPopLoop l l.length = some (l.reverse, []) := by
  induction l using List.reverseRecOn with
  | nil => rfl
  | append_singleton xs x ih =>
    have hlen : (xs ++ [x]).length = xs.length + 1 := by simp
    rw [hlen]
    simp [clientCAPopLoop, List.getLast?_concat, ih]

/-- C9: get_client_CA_list is destructive and order-reversing — it pops each
name off the engine-owned stack while building its result, so it returns the
names in reverse of the engine's stored order, leaves the engine's list
empty, and a second call on the resulting state returns the empty list. -/
theorem client_CA_list_destructive_reversal (s : EngineState) (names : List String)
    (h : s.clientCAList = some names) :
    (nassl_SSL_get_client_CA_list s).1 = some names.reverse
    ∧ (nassl_SSL_get_client_CA_list s).2.clientCAList = some []
    ∧ (nassl_SSL_get_client_CA_list ((nassl_SSL_get_client_CA_list s).2)).1 = some [] := by
  have hl := clientCAPopLoop_full names
  refine ⟨?_, ?_, ?_⟩ <;>
    simp [nassl_SSL_get_client_CA_list, h, hl, clientCAPopLoop]

/-- Witness for C9: three stored names come back reversed, and the second
call finds the stack drained. -/
theorem client_CA_list_destructive_reversal_witness :
    (nassl_SSL_get_client_CA_list stCAs).1
      = some ["CN=Leaf", "CN=Intermediate", "CN=Root"]
    ∧ (nassl_SSL_get_client_CA_list ((nassl_SSL_get_client_CA_list stCAs).2)).1
      = some [] := by
  have h := client_CA_list_destructive_reversal stCAs
    ["CN=Root", "CN=Intermediate", "CN=Leaf"] rfl
  exact ⟨h.1, h.2.2⟩

/-- The do-while loop of get_cipher_list, started at priority p with exactly
the remaining number of priorities as fuel, collects the names of the
configured ciphers from priority p on. -/
theorem cipherListLoop_spec (s : EngineState) :
    ∀ fuel p, s.configuredCiphers.length = p + fuel → 0 < fuel →
      cipherListLoop s p fuel = (s.configuredCiphers.drop p).map Cipher.name := by
  intro fuel
  induction fuel with
  | zero => intro p _ hpos; omega
  | succ f ih =>
    intro p hlen _
    have hp : p < s.configuredCiphers.length := by omega
    have hname : SSL_get_cipher_list s p = some s.configuredCiphers[p].name := by
      simp [SSL_get_cipher_list, List.getElem?_eq_getElem hp]
    have hdrop := List.drop_eq_getElem_cons hp
    by_cases hnext : p + 1 < s.configuredCiphers.length
    · have hf : 0 < f := by omega
      have hnextname : (SSL_get_cipher_list s (p + 1)).isSome = true := by
        simp [SSL_get_cipher_list, List.getElem?_eq_getElem hnext]
      rw [cipherListLoop, hname, hnextname]
      simp only [if_true, Option.getD_some]
      rw [ih (p + 1) (by omega) hf, hdrop, List.map_cons]
    · have hf : f = 0 := by omega
      subst hf
      have hge : s.configuredCiphers.length ≤ p + 1 := by omega
      have hnextnone : (SSL_get_cipher_list s (p + 1)).isSome = false := by
        simp [SSL_get_cipher_list, List.getElem?_eq_none hge]
      rw [cipherListLoop, hname, hnextnone]
      simp only [Bool.false_eq_true, if_false]
      rw [hdrop, List.drop_eq_nil_of_le (by omega)]
      simp

/-- C10: get_cipher_list returns None — not an empty list — when no cipher is
configured (the engine reports no cipher at priority 0), and otherwise the
non-empty list of every configured cipher's name in priority order. -/
theorem get_cipher_list_spec (s : EngineState) :
    (s.configuredCiphers = [] → nassl_SSL_get_cipher_list s = none)
    ∧ (s.configuredCiphers ≠ [] →
        nassl_SSL_get_cipher_list s = some (s.configuredCiphers.map Cipher.name)
        ∧ s.configuredCiphers.map Cipher.name ≠ []) := by
  constructor
  · intro h
    simp [nassl_SSL_get_cipher_list, SSL_get_cipher_list, h]
  · intro h
    have hpos : 0 < s.configuredCiphers.length := List.length_pos.mpr h
    have h0 : SSL_get_cipher_list s 0 = some s.configuredCiphers[0].name := by
      simp [SSL_get_cipher_list, List.getElem?_eq_getElem hpos]
    have hloop := cipherListLoop_spec s s.configuredCiphers.length 0 (by omega) hpos
    constructor
    · rw [nassl_SSL_get_cipher_list, h0]
      simp only [hloop, List.drop_zero]
    · simp [h]

/-- Witness for C10: an empty configuration yields None while two configured
ciphers yield their two names in priority order. -/
theorem get_cipher_list_spec_witness :
    nassl_SSL_get_cipher_list stVerify = none
    ∧ nassl_SSL_get_cipher_list stCfg = some ["AES128-SHA", "AES256-SHA"] :=
  ⟨(get_cipher_list_spec stVerify).1 rfl,
    ((get_cipher_list_spec stCfg).2 (by decide)).1⟩

end Nassl
